import Mathlib

/-!
# k8sutil: a shallow embedding of `src/k8sutil/k8sutil.go`

The Go package is a thin facade over the Kubernetes client.  Everything it calls
(the typed core/v1 client, the config loaders, the informer, the two loggers) is an
external collaborator, so each of them appears here as a parameter:

* the core/v1 object types (`NamespaceList`, `Secret`, `ServiceAccount`, `Namespace`) and
  the Go `error` type are type parameters `NL`, `S`, `A`, `N`, `E`;
* the cluster behind the typed client is a record of state transformers over an arbitrary
  cluster state `σ` (`KubeInterface`);
* the config loaders are a record of functions (`Resolver`);
* the informer is the stream of notifications it hands to the registered handlers.

A Go result pair `(T, error)` is a pair `Option T × Option E` (`none` is `nil`).
Side effects are explicit state: the calls made on the client, the resolver functions
attempted and the lines written to the log sinks are appended to lists carried in the state.
-/

namespace K8sutil

/-! ## Shared vocabulary -/

/-- Go `context.Context` values, as far as this package builds them. -/
inductive Context where
  | background
  | derived (tag : String)
  deriving DecidableEq, Repr

/-- The option structs of `meta/v1` (`ListOptions`, `GetOptions`, `CreateOptions`,
`UpdateOptions`), as the list of fields a caller has set. -/
structure Options where
  fields : List (String × String)
  deriving DecidableEq, Repr

/-- The zero value `meta.XxxOptions{}`: no field set. -/
def Options.zero : Options := ⟨[]⟩

/-- One line handed to a log sink.  The error is kept as a value, next to the text that
precedes it, so that a statement can speak about which error was logged. -/
inductive LogEntry (E : Type) where
  /-- Output of `logrus.Info(msg)` and of `logrus.Infof`, already formatted. -/
  | info (msg : String)
  /-- Output of `logrus.Error(msg, err)`. -/
  | error (msg : String) (err : E)
  /-- Output of `logrus.Fatalf(format, err)`. -/
  | fatal (format : String) (err : E)
  /-- Output of `log.Println(err)`. -/
  | println (err : E)
  deriving DecidableEq, Repr

/-- How a Go call ends: it returns a value, it panics, or the process exits
(`os.Exit`, reached through `logrus.Fatalf`). -/
inductive Outcome (α : Type) where
  | returned (value : α)
  | panicked (reason : String)
  | exited (code : Nat)
  deriving DecidableEq, Repr

/-- Reason of the panic raised by a method call on a nil interface value. -/
def nilDereference : String := "invalid memory address or nil pointer dereference"

/-- Reason of the panic raised by a failed type assertion `obj.(*v1.Namespace)`. -/
def badAssertion : String := "interface conversion: interface {} is not *v1.Namespace"

/-! ## The typed client and the facade -/

/-- A call on the typed core/v1 client, with every argument it was given. -/
inductive ApiCall (S A : Type) where
  | namespacesList (ctx : Context) (opts : Options)
  | secretsGet (ns : String) (ctx : Context) (name : String) (opts : Options)
  | secretsCreate (ns : String) (ctx : Context) (secret : S) (opts : Options)
  | secretsUpdate (ns : String) (ctx : Context) (secret : S) (opts : Options)
  | serviceAccountsGet (ns : String) (ctx : Context) (name : String) (opts : Options)
  | serviceAccountsUpdate (ns : String) (ctx : Context) (sa : A) (opts : Options)
  deriving DecidableEq, Repr

/-- The part of `KubeInterface` (`CoreV1()` and the resource clients under it) that the
facade calls.  Each method transforms the cluster state `σ` and returns a Go result pair. -/
structure KubeInterface (σ NL S A E : Type) where
  /-- The method `CoreV1().Namespaces().List(ctx, opts)`. -/
  namespacesList : Context → Options → σ → (Option NL × Option E) × σ
  /-- The method `CoreV1().Secrets(ns).Get(ctx, name, opts)`. -/
  secretsGet : String → Context → String → Options → σ → (Option S × Option E) × σ
  /-- The method `CoreV1().Secrets(ns).Create(ctx, secret, opts)`. -/
  secretsCreate : String → Context → S → Options → σ → (Option S × Option E) × σ
  /-- The method `CoreV1().Secrets(ns).Update(ctx, secret, opts)`. -/
  secretsUpdate : String → Context → S → Options → σ → (Option S × Option E) × σ
  /-- The method `CoreV1().ServiceAccounts(ns).Get(ctx, name, opts)`. -/
  serviceAccountsGet : String → Context → String → Options → σ → (Option A × Option E) × σ
  /-- The method `CoreV1().ServiceAccounts(ns).Update(ctx, sa, opts)`. -/
  serviceAccountsUpdate : String → Context → A → Options → σ → (Option A × Option E) × σ

/-- The struct `K8sutilInterface`.  `Kclient` is a Go interface value, so it may be nil. -/
structure K8sutilInterface (K : Type) where
  Kclient : Option K
  MasterHost : String
  deriving DecidableEq, Repr

/-- Everything a facade operation can read or change: the cluster behind the client,
the calls made on the client so far, and the logrus sink. -/
structure World (σ S A E : Type) where
  cluster : σ
  calls : List (ApiCall S A)
  log : List (LogEntry E)

section Facade

variable {σ NL S A E : Type}

/-- The state after one client call: the cluster has moved and the call is on record. -/
def World.afterCall (w : World σ S A E) (c : ApiCall S A) (cluster : σ) : World σ S A E :=
  { w with cluster := cluster, calls := w.calls ++ [c] }

/-- The state after `logrus.Error(msg, err)`. -/
def World.logError (w : World σ S A E) (msg : String) (err : E) : World σ S A E :=
  { w with log := w.log ++ [LogEntry.error msg err] }

/-- The method `GetNamespaces`: returns all namespaces. -/
def GetNamespaces (k : K8sutilInterface (KubeInterface σ NL S A E)) (w : World σ S A E) :
    Outcome (Option NL × Option E) × World σ S A E :=
  match k.Kclient with
  | none => (Outcome.panicked nilDereference, w)
  | some api =>
    let r := api.namespacesList Context.background Options.zero w.cluster
    let w1 := w.afterCall (ApiCall.namespacesList Context.background Options.zero) r.2
    match r.1.2 with
    | some err => (Outcome.returned (none, some err), w1.logError "Error getting namespaces: " err)
    | none => (Outcome.returned (r.1.1, none), w1)

/-- The method `GetSecret`: get a secret. -/
def GetSecret (k : K8sutilInterface (KubeInterface σ NL S A E)) (ns secretname : String)
    (w : World σ S A E) : Outcome (Option S × Option E) × World σ S A E :=
  match k.Kclient with
  | none => (Outcome.panicked nilDereference, w)
  | some api =>
    let r := api.secretsGet ns Context.background secretname Options.zero w.cluster
    let w1 := w.afterCall (ApiCall.secretsGet ns Context.background secretname Options.zero) r.2
    match r.1.2 with
    | some err => (Outcome.returned (none, some err), w1.logError "Error getting secret: " err)
    | none => (Outcome.returned (r.1.1, none), w1)

/-- The method `CreateSecret`: creates a secret. -/
def CreateSecret (k : K8sutilInterface (KubeInterface σ NL S A E)) (ns : String) (secret : S)
    (w : World σ S A E) : Outcome (Option E) × World σ S A E :=
  match k.Kclient with
  | none => (Outcome.panicked nilDereference, w)
  | some api =>
    let r := api.secretsCreate ns Context.background secret Options.zero w.cluster
    let w1 := w.afterCall (ApiCall.secretsCreate ns Context.background secret Options.zero) r.2
    match r.1.2 with
    | some err => (Outcome.returned (some err), w1.logError "Error creating secret: " err)
    | none => (Outcome.returned none, w1)

/-- The method `UpdateSecret`: updates a secret. -/
def UpdateSecret (k : K8sutilInterface (KubeInterface σ NL S A E)) (ns : String) (secret : S)
    (w : World σ S A E) : Outcome (Option E) × World σ S A E :=
  match k.Kclient with
  | none => (Outcome.panicked nilDereference, w)
  | some api =>
    let r := api.secretsUpdate ns Context.background secret Options.zero w.cluster
    let w1 := w.afterCall (ApiCall.secretsUpdate ns Context.background secret Options.zero) r.2
    match r.1.2 with
    | some err => (Outcome.returned (some err), w1.logError "Error updating secret: " err)
    | none => (Outcome.returned none, w1)

/-- The method `GetServiceAccount`. -/
def GetServiceAccount (k : K8sutilInterface (KubeInterface σ NL S A E)) (ns name : String)
    (w : World σ S A E) : Outcome (Option A × Option E) × World σ S A E :=
  match k.Kclient with
  | none => (Outcome.panicked nilDereference, w)
  | some api =>
    let r := api.serviceAccountsGet ns Context.background name Options.zero w.cluster
    let w1 := w.afterCall (ApiCall.serviceAccountsGet ns Context.background name Options.zero) r.2
    match r.1.2 with
    | some err =>
      (Outcome.returned (none, some err), w1.logError "Error getting service account: " err)
    | none => (Outcome.returned (r.1.1, none), w1)

/-- The method `UpdateServiceAccount`. -/
def UpdateServiceAccount (k : K8sutilInterface (KubeInterface σ NL S A E)) (ns : String) (sa : A)
    (w : World σ S A E) : Outcome (Option E) × World σ S A E :=
  match k.Kclient with
  | none => (Outcome.panicked nilDereference, w)
  | some api =>
    let r := api.serviceAccountsUpdate ns Context.background sa Options.zero w.cluster
    let w1 := w.afterCall (ApiCall.serviceAccountsUpdate ns Context.background sa Options.zero) r.2
    match r.1.2 with
    | some err => (Outcome.returned (some err), w1.logError "Error updating service account: " err)
    | none => (Outcome.returned none, w1)

end Facade

/-! ## Construction -/

/-- The three external functions the constructor relies on, in a fixed environment:
`rest.InClusterConfig()`, `clientcmd.BuildConfigFromFlags(masterUrl, kubeconfigPath)` and
`kubernetes.NewForConfig(cfg)`.  `C` is `rest.Config`, `K` the client set. -/
structure Resolver (C K E : Type) where
  InClusterConfig : Option C × Option E
  BuildConfigFromFlags : String → String → Option C × Option E
  NewForConfig : Option C → Option K × Option E

/-- A call on one of the resolver functions, with its arguments. -/
inductive ResolverCall (C : Type) where
  | inClusterConfig
  | buildConfigFromFlags (masterUrl kubeconfigPath : String)
  | newForConfig (cfg : Option C)
  deriving DecidableEq, Repr

/-- The state around construction: the resolver calls attempted so far and the logrus sink. -/
structure Boot (C E : Type) where
  attempts : List (ResolverCall C)
  log : List (LogEntry E)

section Construction

variable {C K E : Type}

/-- The state after a resolver function has been called. -/
def Boot.attempt (b : Boot C E) (c : ResolverCall C) : Boot C E :=
  { b with attempts := b.attempts ++ [c] }

/-- The state after one more line on the logrus sink. -/
def Boot.write (b : Boot C E) (l : LogEntry E) : Boot C E :=
  { b with log := b.log ++ [l] }

/-- The function `newKubeClient`.  The result client is `none` exactly where the Go code
returns a nil interface; on success it is whatever `NewForConfig` produced. -/
def newKubeClient (r : Resolver C K E) (kubeCfgFile : String) (b : Boot C E) :
    (Option K × Option E) × Boot C E :=
  if kubeCfgFile.length == 0 then
    let b1 := b.write (LogEntry.info "Using InCluster k8s config")
    let b2 := b1.attempt ResolverCall.inClusterConfig
    match r.InClusterConfig with
    | (_, some err) => ((none, some err), b2)
    | (cfg, none) =>
      let b3 := b2.attempt (ResolverCall.newForConfig cfg)
      match r.NewForConfig cfg with
      | (_, some err) => ((none, some err), b3)
      | (client, none) => ((client, none), b3)
  else
    let b1 := b.write
      (LogEntry.info ("Using OutOfCluster k8s config with kubeConfigFile: " ++ kubeCfgFile))
    let b2 := b1.attempt (ResolverCall.buildConfigFromFlags "" kubeCfgFile)
    match r.BuildConfigFromFlags "" kubeCfgFile with
    | (_, some err) =>
      ((none, some err), b2.write (LogEntry.error "Got error trying to create client: " err))
    | (cfg, none) =>
      let b3 := b2.attempt (ResolverCall.newForConfig cfg)
      match r.NewForConfig cfg with
      | (_, some err) => ((none, some err), b3)
      | (client, none) => ((client, none), b3)

/-- The function `New`: creates a new instance of k8sutil.  `logrus.Fatalf` writes the
entry and then exits the process with status 1, so the lines after it run only when
`newKubeClient` returned a nil error. -/
def New (r : Resolver C K E) (kubeCfgFile masterHost : String) (b : Boot C E) :
    Outcome (Option (K8sutilInterface K) × Option E) × Boot C E :=
  match newKubeClient r kubeCfgFile b with
  | ((_, some err), b1) =>
    (Outcome.exited 1, b1.write (LogEntry.fatal "Could not init Kubernetes client! [%s]" err))
  | ((client, none), b1) =>
    (Outcome.returned (some { Kclient := client, MasterHost := masterHost }, none), b1)

end Construction

/-! ## The namespace watch -/

/-- A value of Go type `interface{}` as the informer hands it to a handler: either a
`*v1.Namespace`, or a value of some other dynamic type (named by `kind`). -/
inductive Obj (N : Type) where
  | ns (n : N)
  | other (kind : String)
  deriving DecidableEq, Repr

/-- One call of the informer on the registered `cache.ResourceEventHandler`. -/
inductive Notification (N : Type) where
  | add (obj : Obj N)
  | update (oldObj newObj : Obj N)
  | delete (obj : Obj N)
  deriving DecidableEq, Repr

/-- A Go `chan struct{}` used as a stop signal: all that matters is whether it was closed
or sent on. -/
structure Chan where
  signalled : Bool
  deriving DecidableEq, Repr

/-- The result of `make(chan struct{})`. -/
def Chan.make : Chan := ⟨false⟩

/-- The state of a running watch: the state owned by the user callback, the arguments
the callback has been invoked with so far, the sink of the standard `log` package, the
stop channel, and the resync period the informer was built with. -/
structure WatchState (τ N E : Type) where
  user : τ
  invoked : List N
  log : List (LogEntry E)
  stopC : Chan
  resyncPeriod : Int

/-- The struct `cache.ResourceEventHandlerFuncs`: three optional functions. -/
structure ResourceEventHandlerFuncs (ω N : Type) where
  AddFunc : Option (Obj N → ω → Outcome ω)
  UpdateFunc : Option (Obj N → Obj N → ω → Outcome ω)
  DeleteFunc : Option (Obj N → ω → Outcome ω)

/-- How the loop of `Run` stands after the notifications it was given: still waiting for
the next one, returned because the stop channel fired, or unwound by a panic. -/
inductive RunStatus where
  | running
  | stopped
  | panicked (reason : String)
  | exited (code : Nat)
  deriving DecidableEq, Repr

section Watch

variable {τ N E ω : Type}

/-- The methods `OnAdd`, `OnUpdate` and `OnDelete` of `cache.ResourceEventHandlerFuncs`:
each calls its function when it is not nil and does nothing otherwise. -/
def ResourceEventHandlerFuncs.dispatch (h : ResourceEventHandlerFuncs ω N)
    (e : Notification N) (st : ω) : Outcome ω :=
  match e with
  | Notification.add obj =>
    match h.AddFunc with
    | some f => f obj st
    | none => Outcome.returned st
  | Notification.update oldObj newObj =>
    match h.UpdateFunc with
    | some f => f oldObj newObj st
    | none => Outcome.returned st
  | Notification.delete obj =>
    match h.DeleteFunc with
    | some f => f obj st
    | none => Outcome.returned st

/-- The body shared by the two function literals of `WatchNamespaces`:
`if err := handler(obj.(*v1.Namespace)); err != nil { log.Println(err) }`. -/
def callHandler (handler : N → τ → Option E × τ) (obj : Obj N) (st : WatchState τ N E) :
    Outcome (WatchState τ N E) :=
  match obj with
  | Obj.other _ => Outcome.panicked badAssertion
  | Obj.ns n =>
    let r := handler n st.user
    let st1 := { st with user := r.2, invoked := st.invoked ++ [n] }
    match r.1 with
    | some err => Outcome.returned { st1 with log := st1.log ++ [LogEntry.println err] }
    | none => Outcome.returned st1

/-- The handler struct literal passed to `cache.NewInformer` by `WatchNamespaces`:
`AddFunc` and `UpdateFunc` are set, `DeleteFunc` is left nil. -/
def namespaceHandlers (handler : N → τ → Option E × τ) :
    ResourceEventHandlerFuncs (WatchState τ N E) N where
  AddFunc := some (fun obj st => callHandler handler obj st)
  UpdateFunc := some (fun _ obj st => callHandler handler obj st)
  DeleteFunc := none

/-- The loop of `Run(stopCh)` of the controller over the notifications the informer
produces: it returns once the stop channel has fired, and hands every notification to the
handlers until then.  `stopOf` reads the stop channel out of the state. -/
def processLoop (h : ResourceEventHandlerFuncs ω N) (stopOf : ω → Chan) :
    List (Notification N) → ω → RunStatus × ω
  | [], st => (if (stopOf st).signalled then RunStatus.stopped else RunStatus.running, st)
  | e :: rest, st =>
    if (stopOf st).signalled then (RunStatus.stopped, st)
    else
      match h.dispatch e st with
      | Outcome.returned st1 => processLoop h stopOf rest st1
      | Outcome.panicked reason => (RunStatus.panicked reason, st)
      | Outcome.exited code => (RunStatus.exited code, st)

/-- The method `WatchNamespaces`, run against the notifications `evs` that the informer
delivers.  The callback starts in state `user`, the `log` sink holds `log`.  The Go method
has no result; what is returned here is how far the call got and the final state. -/
def WatchNamespaces {K : Type} (k : K8sutilInterface K) (resyncPeriod : Int)
    (handler : N → τ → Option E × τ) (evs : List (Notification N)) (user : τ)
    (log : List (LogEntry E)) : RunStatus × WatchState τ N E :=
  let stopC := Chan.make
  let st : WatchState τ N E :=
    { user := user, invoked := [], log := log, stopC := stopC, resyncPeriod := resyncPeriod }
  match k.Kclient with
  | none => (RunStatus.panicked nilDereference, st)
  | some _ =>
    processLoop (namespaceHandlers handler) (fun s => s.stopC) evs st

end Watch

/-! ## Vocabulary of the claims about the watch -/

/-- An informer event of a namespace informer: the objects of add and update events are
namespaces; a delete event may carry a namespace or a tombstone. -/
inductive NsEvent (N : Type) where
  | add (obj : N)
  | update (oldObj newObj : N)
  | delete (obj : Obj N)
  deriving DecidableEq, Repr

section WatchVocabulary

variable {τ N E : Type}

/-- The notification by which the informer delivers an event. -/
def NsEvent.toNotification : NsEvent N → Notification N
  | NsEvent.add obj => Notification.add (Obj.ns obj)
  | NsEvent.update oldObj newObj => Notification.update (Obj.ns oldObj) (Obj.ns newObj)
  | NsEvent.delete obj => Notification.delete obj

/-- What the specification expects the callback to receive for one event: the added
object, the new object of an update, nothing for a delete. -/
def NsEvent.expected : NsEvent N → Option N
  | NsEvent.add obj => some obj
  | NsEvent.update _ newObj => some newObj
  | NsEvent.delete _ => none

/-- Whether an event is an add or an update. -/
def NsEvent.isAddOrUpdate : NsEvent N → Bool
  | NsEvent.add _ => true
  | NsEvent.update _ _ => true
  | NsEvent.delete _ => false

/-- The callback with its errors removed: same state changes, never an error. -/
def silenced (handler : N → τ → Option E × τ) : N → τ → Option E × τ :=
  fun n s => (none, (handler n s).2)

/-- The state of the callback after it was invoked on each element of `args` in turn. -/
def userAfter (handler : N → τ → Option E × τ) : List N → τ → τ
  | [], s => s
  | n :: rest, s => userAfter handler rest (handler n s).2

/-- The errors the callback returns when invoked on each element of `args` in turn,
one per failing invocation, in order. -/
def errorsOf (handler : N → τ → Option E × τ) : List N → τ → List E
  | [], _ => []
  | n :: rest, s =>
    match (handler n s).1 with
    | some err => err :: errorsOf handler rest (handler n s).2
    | none => errorsOf handler rest (handler n s).2

end WatchVocabulary

/-! ## A cluster store, as the claims about create, get and update describe it -/

/-- The errors of the store model. -/
inductive StoreErr where
  | notFound
  | alreadyExists
  deriving DecidableEq, Repr

/-- The store: secrets and service accounts under (namespace, name), and the namespace
list. -/
structure Store (NL S A : Type) where
  namespaces : NL
  secrets : List ((String × String) × S)
  accounts : List ((String × String) × A)

section StoreModel

variable {NL S A V : Type}

/-- The object stored under a key. -/
def stored (key : String × String) : List ((String × String) × V) → Option V
  | [] => none
  | (k, v) :: rest => if k = key then some v else stored key rest

/-- The entries with the object under `key` set to `v`. -/
def overwrite (key : String × String) (v : V) :
    List ((String × String) × V) → List ((String × String) × V)
  | [] => [(key, v)]
  | (k, x) :: rest => if k = key then (key, v) :: rest else (k, x) :: overwrite key v rest

/-- Cluster store model of the claims: `Get` returns the stored object, `Create` stores
the object it is given under (namespace, name) when nothing is stored there, `Update`
overwrites the stored object with the one supplied.  `secretName` and `accountName` read
`metadata.name`. -/
def storeApi (secretName : S → String) (accountName : A → String) :
    KubeInterface (Store NL S A) NL S A StoreErr where
  namespacesList := fun _ _ c => ((some c.namespaces, none), c)
  secretsGet := fun ns _ name _ c =>
    match stored (ns, name) c.secrets with
    | some s => ((some s, none), c)
    | none => ((none, some StoreErr.notFound), c)
  secretsCreate := fun ns _ s _ c =>
    match stored (ns, secretName s) c.secrets with
    | some _ => ((none, some StoreErr.alreadyExists), c)
    | none => ((some s, none), { c with secrets := overwrite (ns, secretName s) s c.secrets })
  secretsUpdate := fun ns _ s _ c =>
    match stored (ns, secretName s) c.secrets with
    | some _ => ((some s, none), { c with secrets := overwrite (ns, secretName s) s c.secrets })
    | none => ((none, some StoreErr.notFound), c)
  serviceAccountsGet := fun ns _ name _ c =>
    match stored (ns, name) c.accounts with
    | some a => ((some a, none), c)
    | none => ((none, some StoreErr.notFound), c)
  serviceAccountsUpdate := fun ns _ a _ c =>
    match stored (ns, accountName a) c.accounts with
    | some _ => ((some a, none), { c with accounts := overwrite (ns, accountName a) a c.accounts })
    | none => ((none, some StoreErr.notFound), c)

end StoreModel

/-! ## Vocabulary of the claims about the facade -/

section FacadeVocabulary

variable {σ S A E T : Type}

/-- A read operation passes one client call through: exactly the call `c` was added to
the record, the cluster is where that call left it, an error `e` of the call comes back
as `(nil, e)`, and a successful call comes back as `(object, nil)`. -/
def ReadPassesThrough (w w1 : World σ S A E) (c : ApiCall S A)
    (r : (Option T × Option E) × σ) (out : Outcome (Option T × Option E)) : Prop :=
  w1.calls = w.calls ++ [c] ∧ w1.cluster = r.2 ∧
    (∀ e, r.1.2 = some e → out = Outcome.returned (none, some e)) ∧
    (r.1.2 = none → out = Outcome.returned (r.1.1, none))

/-- A create or update operation passes one client call through: exactly the call `c` was
added to the record, the cluster is where that call left it, an error `e` of the call
comes back as `e`, and a successful call comes back as a nil error. -/
def WritePassesThrough (w w1 : World σ S A E) (c : ApiCall S A)
    (r : (Option T × Option E) × σ) (out : Outcome (Option E)) : Prop :=
  w1.calls = w.calls ++ [c] ∧ w1.cluster = r.2 ∧
    (∀ e, r.1.2 = some e → out = Outcome.returned (some e)) ∧
    (r.1.2 = none → out = Outcome.returned none)

/-- The logging of one operation: when the client call failed with `e`, the log grew by
exactly the entry `msg` followed by `e`, and it is in place in the state in which the
operation returns `e`; when the call succeeded the log is unchanged. -/
def LogsFailureOnly (w w1 : World σ S A E) (msg : String) (err returnedErr : Option E) : Prop :=
  (∀ e, err = some e → w1.log = w.log ++ [LogEntry.error msg e] ∧ returnedErr = some e) ∧
    (err = none → w1.log = w.log ∧ returnedErr = none)

/-- The error an operation returned to its caller, if it returned. -/
def returnedError {α : Type} (errOf : α → Option E) : Outcome α → Option E
  | Outcome.returned v => errOf v
  | Outcome.panicked _ => none
  | Outcome.exited _ => none

end FacadeVocabulary

/-! ## Concrete objects used to instantiate the statements -/

/-- A small secret: its name and its payload. -/
structure DemoSecret where
  name : String
  data : List (String × String)
  deriving DecidableEq, Repr

/-- A small service account: its name and the names of its secrets. -/
structure DemoAccount where
  name : String
  secrets : List String
  deriving DecidableEq, Repr

/-- The store model over the small objects. -/
def demoApi : KubeInterface (Store (List String) DemoSecret DemoAccount) (List String)
    DemoSecret DemoAccount StoreErr :=
  storeApi DemoSecret.name DemoAccount.name

/-- A facade over the store model. -/
def demoFacade : K8sutilInterface (KubeInterface (Store (List String) DemoSecret DemoAccount)
    (List String) DemoSecret DemoAccount StoreErr) :=
  { Kclient := some demoApi, MasterHost := "https://cluster.local" }

/-- A world whose store holds one secret and one service account in namespace `dev`. -/
def demoWorld : World (Store (List String) DemoSecret DemoAccount) DemoSecret DemoAccount
    StoreErr :=
  { cluster :=
      { namespaces := ["default", "dev"]
        secrets := [(("dev", "regcred"), ⟨"regcred", [("user", "u"), ("token", "t")]⟩)]
        accounts := [(("dev", "default"), ⟨"default", ["regcred", "old"]⟩)] }
    calls := []
    log := [] }

/-! ## Vocabulary of the claims about construction -/

/-- Loading the configuration or building the client fails, in the branch that the path
selects: the in-cluster branch for the empty path, the file-based branch otherwise. -/
def ResolutionFails {C K E : Type} (r : Resolver C K E) (kubeCfgFile : String) : Prop :=
  (kubeCfgFile = "" ∧
      (r.InClusterConfig.2 ≠ none ∨ (r.NewForConfig r.InClusterConfig.1).2 ≠ none)) ∨
    (kubeCfgFile ≠ "" ∧
      ((r.BuildConfigFromFlags "" kubeCfgFile).2 ≠ none ∨
        (r.NewForConfig (r.BuildConfigFromFlags "" kubeCfgFile).1).2 ≠ none))

/-- A resolver for a process outside any cluster: no in-cluster environment, one readable
credentials file, and a client for every loaded configuration.  Configurations and
clients are numbers, errors are texts. -/
def demoResolver : Resolver Nat Nat String where
  InClusterConfig := (none, some "unable to load in-cluster configuration")
  BuildConfigFromFlags := fun _ path =>
    if path = "/home/dev/.kube/config" then (some 7, none) else (none, some "no such file")
  NewForConfig := fun cfg =>
    match cfg with
    | some c => (some (c + 1), none)
    | none => (none, some "config is nil")

/-- The state before construction: nothing attempted, nothing logged. -/
def emptyBoot : Boot Nat String := { attempts := [], log := [] }

/-- A callback that appends the name of the namespace to a list and fails on the
namespace `broken`.  Namespaces are their names, errors are texts. -/
def demoHandler : String → List String → Option String × List String :=
  fun n seen => (if n = "broken" then some "cannot handle broken" else none, seen ++ [n])

/-- A run of events: two adds, an update, a delete, an add. -/
def demoEvents : List (NsEvent String) :=
  [NsEvent.add "ns-a", NsEvent.add "broken", NsEvent.update "ns-a" "ns-a",
    NsEvent.delete (Obj.ns "ns-a"), NsEvent.add "ns-b"]

/-! ## The loaders of client-go over a process environment

`newKubeClient` hands resolution to `rest.InClusterConfig` or to
`clientcmd.BuildConfigFromFlags`.  Both belong to client-go, not to this package; the
definitions below follow their behaviour, so that what a loader consults on its own can
be told apart from what `newKubeClient` calls. -/

section Loaders

variable {C K E : Type}

end Loaders

section FacadeTheorems

variable {σ NL S A E : Type}

/-- C1: each of the six facade operations makes exactly one client call, with the
arguments of the caller (and the background context and zero options), and returns the
outcome of that call: an error is returned as it is, with a nil object for the read
operations, and a success returns the object of the call (read operations) or a nil
error (create and update operations). -/
theorem facade_passes_through (api : KubeInterface σ NL S A E) (host ns name : String)
    (secret : S) (sa : A) (w : World σ S A E) :
    ReadPassesThrough w (GetNamespaces ⟨some api, host⟩ w).2
        (ApiCall.namespacesList Context.background Options.zero)
        (api.namespacesList Context.background Options.zero w.cluster)
        (GetNamespaces ⟨some api, host⟩ w).1 ∧
    ReadPassesThrough w (GetSecret ⟨some api, host⟩ ns name w).2
        (ApiCall.secretsGet ns Context.background name Options.zero)
        (api.secretsGet ns Context.background name Options.zero w.cluster)
        (GetSecret ⟨some api, host⟩ ns name w).1 ∧
    WritePassesThrough w (CreateSecret ⟨some api, host⟩ ns secret w).2
        (ApiCall.secretsCreate ns Context.background secret Options.zero)
        (api.secretsCreate ns Context.background secret Options.zero w.cluster)
        (CreateSecret ⟨some api, host⟩ ns secret w).1 ∧
    WritePassesThrough w (UpdateSecret ⟨some api, host⟩ ns secret w).2
        (ApiCall.secretsUpdate ns Context.background secret Options.zero)
        (api.secretsUpdate ns Context.background secret Options.zero w.cluster)
        (UpdateSecret ⟨some api, host⟩ ns secret w).1 ∧
    ReadPassesThrough w (GetServiceAccount ⟨some api, host⟩ ns name w).2
        (ApiCall.serviceAccountsGet ns Context.background name Options.zero)
        (api.serviceAccountsGet ns Context.background name Options.zero w.cluster)
        (GetServiceAccount ⟨some api, host⟩ ns name w).1 ∧
    WritePassesThrough w (UpdateServiceAccount ⟨some api, host⟩ ns sa w).2
        (ApiCall.serviceAccountsUpdate ns Context.background sa Options.zero)
        (api.serviceAccountsUpdate ns Context.background sa Options.zero w.cluster)
        (UpdateServiceAccount ⟨some api, host⟩ ns sa w).1 := by
  refine ⟨?_, ?_, ?_, ?_, ?_, ?_⟩
  · unfold ReadPassesThrough GetNamespaces
    cases h : (api.namespacesList Context.background Options.zero w.cluster).1.2 <;>
      simp [World.afterCall, World.logError, h]
  · unfold ReadPassesThrough GetSecret
    cases h : (api.secretsGet ns Context.background name Options.zero w.cluster).1.2 <;>
      simp [World.afterCall, World.logError, h]
  · unfold WritePassesThrough CreateSecret
    cases h : (api.secretsCreate ns Context.background secret Options.zero w.cluster).1.2 <;>
      simp [World.afterCall, World.logError, h]
  · unfold WritePassesThrough UpdateSecret
    cases h : (api.secretsUpdate ns Context.background secret Options.zero w.cluster).1.2 <;>
      simp [World.afterCall, World.logError, h]
  · unfold ReadPassesThrough GetServiceAccount
    cases h : (api.serviceAccountsGet ns Context.background name Options.zero w.cluster).1.2 <;>
      simp [World.afterCall, World.logError, h]
  · unfold WritePassesThrough UpdateServiceAccount
    cases h : (api.serviceAccountsUpdate ns Context.background sa Options.zero w.cluster).1.2 <;>
      simp [World.afterCall, World.logError, h]

/-- Witness of C1 on the store model: reading a secret that is not stored makes the one
`Get` call and returns `(nil, notFound)`; reading the stored one returns it. -/
theorem facade_passes_through_witness :
    (GetSecret demoFacade "dev" "missing" demoWorld).1
        = Outcome.returned (none, some StoreErr.notFound) ∧
      (GetSecret demoFacade "dev" "regcred" demoWorld).1
        = Outcome.returned (some ⟨"regcred", [("user", "u"), ("token", "t")]⟩, none) ∧
      (GetSecret demoFacade "dev" "regcred" demoWorld).2.calls
        = [ApiCall.secretsGet "dev" Context.background "regcred" Options.zero] :=
  ⟨(facade_passes_through demoApi "https://cluster.local" "dev" "missing"
      ⟨"", []⟩ ⟨"", []⟩ demoWorld).2.1.2.2.1 StoreErr.notFound (by decide),
   (facade_passes_through demoApi "https://cluster.local" "dev" "regcred"
      ⟨"", []⟩ ⟨"", []⟩ demoWorld).2.1.2.2.2 (by decide),
   (facade_passes_through demoApi "https://cluster.local" "dev" "regcred"
      ⟨"", []⟩ ⟨"", []⟩ demoWorld).2.1.1⟩

/-- C8: with the log as explicit state, each of the six facade operations appends exactly
one error entry (its own message followed by the error of the client call) when the
client call fails, the entry being in place in the state in which the error is returned,
and leaves the log unchanged when the client call succeeds. -/
theorem facade_logs_failure_only (api : KubeInterface σ NL S A E) (host ns name : String)
    (secret : S) (sa : A) (w : World σ S A E) :
    LogsFailureOnly w (GetNamespaces ⟨some api, host⟩ w).2 "Error getting namespaces: "
        (api.namespacesList Context.background Options.zero w.cluster).1.2
        (returnedError Prod.snd (GetNamespaces ⟨some api, host⟩ w).1) ∧
    LogsFailureOnly w (GetSecret ⟨some api, host⟩ ns name w).2 "Error getting secret: "
        (api.secretsGet ns Context.background name Options.zero w.cluster).1.2
        (returnedError Prod.snd (GetSecret ⟨some api, host⟩ ns name w).1) ∧
    LogsFailureOnly w (CreateSecret ⟨some api, host⟩ ns secret w).2 "Error creating secret: "
        (api.secretsCreate ns Context.background secret Options.zero w.cluster).1.2
        (returnedError id (CreateSecret ⟨some api, host⟩ ns secret w).1) ∧
    LogsFailureOnly w (UpdateSecret ⟨some api, host⟩ ns secret w).2 "Error updating secret: "
        (api.secretsUpdate ns Context.background secret Options.zero w.cluster).1.2
        (returnedError id (UpdateSecret ⟨some api, host⟩ ns secret w).1) ∧
    LogsFailureOnly w (GetServiceAccount ⟨some api, host⟩ ns name w).2
        "Error getting service account: "
        (api.serviceAccountsGet ns Context.background name Options.zero w.cluster).1.2
        (returnedError Prod.snd (GetServiceAccount ⟨some api, host⟩ ns name w).1) ∧
    LogsFailureOnly w (UpdateServiceAccount ⟨some api, host⟩ ns sa w).2
        "Error updating service account: "
        (api.serviceAccountsUpdate ns Context.background sa Options.zero w.cluster).1.2
        (returnedError id (UpdateServiceAccount ⟨some api, host⟩ ns sa w).1) := by
  refine ⟨?_, ?_, ?_, ?_, ?_, ?_⟩
  · unfold LogsFailureOnly GetNamespaces
    cases h : (api.namespacesList Context.background Options.zero w.cluster).1.2 <;>
      simp [World.afterCall, World.logError, returnedError, h]
  · unfold LogsFailureOnly GetSecret
    cases h : (api.secretsGet ns Context.background name Options.zero w.cluster).1.2 <;>
      simp [World.afterCall, World.logError, returnedError, h]
  · unfold LogsFailureOnly CreateSecret
    cases h : (api.secretsCreate ns Context.background secret Options.zero w.cluster).1.2 <;>
      simp [World.afterCall, World.logError, returnedError, h]
  · unfold LogsFailureOnly UpdateSecret
    cases h : (api.secretsUpdate ns Context.background secret Options.zero w.cluster).1.2 <;>
      simp [World.afterCall, World.logError, returnedError, h]
  · unfold LogsFailureOnly GetServiceAccount
    cases h : (api.serviceAccountsGet ns Context.background name Options.zero w.cluster).1.2 <;>
      simp [World.afterCall, World.logError, returnedError, h]
  · unfold LogsFailureOnly UpdateServiceAccount
    cases h : (api.serviceAccountsUpdate ns Context.background sa Options.zero w.cluster).1.2 <;>
      simp [World.afterCall, World.logError, returnedError, h]

/-- Witness of C8 on the store model: creating a secret that already exists logs the one
entry and returns the error; updating it logs nothing. -/
theorem facade_logs_failure_only_witness :
    (CreateSecret demoFacade "dev" ⟨"regcred", []⟩ demoWorld).2.log
        = [LogEntry.error "Error creating secret: " StoreErr.alreadyExists] ∧
      (UpdateSecret demoFacade "dev" ⟨"regcred", []⟩ demoWorld).2.log = [] :=
  ⟨((facade_logs_failure_only demoApi "https://cluster.local" "dev" "regcred"
      ⟨"regcred", []⟩ ⟨"", []⟩ demoWorld).2.2.1.1 StoreErr.alreadyExists (by decide)).1,
   ((facade_logs_failure_only demoApi "https://cluster.local" "dev" "regcred"
      ⟨"regcred", []⟩ ⟨"", []⟩ demoWorld).2.2.2.1.2 (by decide)).1⟩

end FacadeTheorems

section StoreTheorems

variable {NL S A V : Type}

/-- After `overwrite`, the key holds the new object. -/
theorem stored_overwrite (key : String × String) (v : V) (l : List ((String × String) × V)) :
    stored key (overwrite key v l) = some v := by
  induction l with
  | nil => simp [overwrite, stored]
  | cons x rest ih =>
    obtain ⟨k, x⟩ := x
    by_cases hk : k = key
    · simp [overwrite, stored, hk]
    · simp [overwrite, stored, hk, ih]

/-- C6: over the store model, when `CreateSecret` succeeds, a `GetSecret` that follows it
for the same namespace and the name of the secret returns, with a nil error, a secret
equal to the one passed to `CreateSecret`. -/
theorem create_then_get_returns_created (secretName : S → String) (accountName : A → String)
    (host ns : String) (secret : S) (w : World (Store NL S A) S A StoreErr)
    (h : (CreateSecret ⟨some (storeApi secretName accountName), host⟩ ns secret w).1
      = Outcome.returned none) :
    (GetSecret ⟨some (storeApi secretName accountName), host⟩ ns (secretName secret)
        (CreateSecret ⟨some (storeApi secretName accountName), host⟩ ns secret w).2).1
      = Outcome.returned (some secret, none) := by
  unfold CreateSecret at h ⊢
  unfold GetSecret
  cases hs : stored (ns, secretName secret) w.cluster.secrets with
  | some old => simp [storeApi, hs] at h
  | none => simp [storeApi, hs, World.afterCall, stored_overwrite]

/-- Witness of C6: creating `pull` in namespace `dev` of the demo world succeeds, and the
read that follows returns it. -/
theorem create_then_get_returns_created_witness :
    (CreateSecret demoFacade "dev" ⟨"pull", [("auth", "x")]⟩ demoWorld).1
        = Outcome.returned none ∧
      (GetSecret demoFacade "dev" "pull"
          (CreateSecret demoFacade "dev" ⟨"pull", [("auth", "x")]⟩ demoWorld).2).1
        = Outcome.returned (some ⟨"pull", [("auth", "x")]⟩, none) :=
  ⟨by decide,
   create_then_get_returns_created DemoSecret.name DemoAccount.name "https://cluster.local"
     "dev" ⟨"pull", [("auth", "x")]⟩ demoWorld (by decide)⟩

/-- C7: over the store model, for every prior stored version and every supplied object,
`UpdateSecret` and `UpdateServiceAccount` succeed and leave the supplied object, exactly,
as the stored one; a field that the supplied object omits is absent from the stored
object whatever the prior version held. -/
theorem update_replaces_stored_object (secretName : S → String) (accountName : A → String)
    (host ns : String) (secret : S) (sa : A) (w : World (Store NL S A) S A StoreErr) :
    (∀ prior, stored (ns, secretName secret) w.cluster.secrets = some prior →
      (UpdateSecret ⟨some (storeApi secretName accountName), host⟩ ns secret w).1
          = Outcome.returned none ∧
        stored (ns, secretName secret)
          (UpdateSecret ⟨some (storeApi secretName accountName), host⟩ ns secret w).2.cluster.secrets
          = some secret ∧
        ∀ (F : Type) (field : S → Option F), field secret = none →
          (stored (ns, secretName secret)
            (UpdateSecret ⟨some (storeApi secretName accountName), host⟩ ns secret
              w).2.cluster.secrets).bind field = none) ∧
    (∀ prior, stored (ns, accountName sa) w.cluster.accounts = some prior →
      (UpdateServiceAccount ⟨some (storeApi secretName accountName), host⟩ ns sa w).1
          = Outcome.returned none ∧
        stored (ns, accountName sa)
          (UpdateServiceAccount ⟨some (storeApi secretName accountName), host⟩ ns sa
            w).2.cluster.accounts = some sa ∧
        ∀ (F : Type) (field : A → Option F), field sa = none →
          (stored (ns, accountName sa)
            (UpdateServiceAccount ⟨some (storeApi secretName accountName), host⟩ ns sa
              w).2.cluster.accounts).bind field = none) := by
  constructor
  · intro prior hp
    have hs : stored (ns, secretName secret)
        (UpdateSecret ⟨some (storeApi secretName accountName), host⟩ ns secret
          w).2.cluster.secrets = some secret := by
      simp [UpdateSecret, storeApi, hp, World.afterCall, stored_overwrite]
    refine ⟨?_, hs, ?_⟩
    · simp [UpdateSecret, storeApi, hp]
    · intro F field hf
      rw [hs]
      simpa using hf
  · intro prior hp
    have hs : stored (ns, accountName sa)
        (UpdateServiceAccount ⟨some (storeApi secretName accountName), host⟩ ns sa
          w).2.cluster.accounts = some sa := by
      simp [UpdateServiceAccount, storeApi, hp, World.afterCall, stored_overwrite]
    refine ⟨?_, hs, ?_⟩
    · simp [UpdateServiceAccount, storeApi, hp]
    · intro F field hf
      rw [hs]
      simpa using hf

/-- Witness of C7: the demo world stores `regcred` with the keys `user` and `token`;
after an update that supplies only `user`, the stored secret has only `user`.  The stored
service account lists two secrets; after an update that supplies none, it lists none. -/
theorem update_replaces_stored_object_witness :
    stored ("dev", "regcred") demoWorld.cluster.secrets
        = some ⟨"regcred", [("user", "u"), ("token", "t")]⟩ ∧
      stored ("dev", "regcred")
          (UpdateSecret demoFacade "dev" ⟨"regcred", [("user", "v")]⟩ demoWorld).2.cluster.secrets
        = some ⟨"regcred", [("user", "v")]⟩ ∧
      stored ("dev", "default")
          (UpdateServiceAccount demoFacade "dev" ⟨"default", []⟩ demoWorld).2.cluster.accounts
        = some ⟨"default", []⟩ :=
  ⟨by decide,
   ((update_replaces_stored_object DemoSecret.name DemoAccount.name "https://cluster.local"
      "dev" ⟨"regcred", [("user", "v")]⟩ ⟨"default", []⟩ demoWorld).1
      ⟨"regcred", [("user", "u"), ("token", "t")]⟩ (by decide)).2.1,
   ((update_replaces_stored_object DemoSecret.name DemoAccount.name "https://cluster.local"
      "dev" ⟨"regcred", [("user", "v")]⟩ ⟨"default", []⟩ demoWorld).2
      ⟨"default", ["regcred", "old"]⟩ (by decide)).2.1⟩

end StoreTheorems

section ConstructionTheorems

variable {C K E : Type}

/-- A string has length zero exactly when it is the empty string. -/
theorem length_eq_zero_iff_empty (s : String) : s.length = 0 ↔ s = "" := by
  constructor
  · intro h
    cases s with
    | mk data =>
      have hd : data = [] := List.length_eq_zero.mp h
      subst hd
      rfl
  · intro h
    subst h
    rfl

/-- The attempts and the result of `newKubeClient` for the empty path. -/
theorem newKubeClient_empty (r : Resolver C K E) (b : Boot C E) :
    newKubeClient r "" b =
      match r.InClusterConfig with
      | (_, some err) =>
        ((none, some err),
          (b.write (LogEntry.info "Using InCluster k8s config")).attempt
            ResolverCall.inClusterConfig)
      | (cfg, none) =>
        match r.NewForConfig cfg with
        | (_, some err) =>
          ((none, some err),
            ((b.write (LogEntry.info "Using InCluster k8s config")).attempt
              ResolverCall.inClusterConfig).attempt (ResolverCall.newForConfig cfg))
        | (client, none) =>
          ((client, none),
            ((b.write (LogEntry.info "Using InCluster k8s config")).attempt
              ResolverCall.inClusterConfig).attempt (ResolverCall.newForConfig cfg)) := by
  simp [newKubeClient]

/-- The attempts and the result of `newKubeClient` for a non-empty path. -/
theorem newKubeClient_path (r : Resolver C K E) (path : String) (hp : path ≠ "")
    (b : Boot C E) :
    newKubeClient r path b =
      match r.BuildConfigFromFlags "" path with
      | (_, some err) =>
        ((none, some err),
          ((b.write (LogEntry.info
              ("Using OutOfCluster k8s config with kubeConfigFile: " ++ path))).attempt
            (ResolverCall.buildConfigFromFlags "" path)).write
            (LogEntry.error "Got error trying to create client: " err))
      | (cfg, none) =>
        match r.NewForConfig cfg with
        | (_, some err) =>
          ((none, some err),
            ((b.write (LogEntry.info
                ("Using OutOfCluster k8s config with kubeConfigFile: " ++ path))).attempt
              (ResolverCall.buildConfigFromFlags "" path)).attempt
              (ResolverCall.newForConfig cfg))
        | (client, none) =>
          ((client, none),
            ((b.write (LogEntry.info
                ("Using OutOfCluster k8s config with kubeConfigFile: " ++ path))).attempt
              (ResolverCall.buildConfigFromFlags "" path)).attempt
              (ResolverCall.newForConfig cfg)) := by
  have hl : ¬ path.length = 0 := fun h => hp ((length_eq_zero_iff_empty path).mp h)
  simp [newKubeClient, hl]

/-- The result of `New` when `newKubeClient` fails with `e`: the fatal entry is written
and the process exits with status 1. -/
theorem New_of_failure (r : Resolver C K E) (path host : String) (b : Boot C E) (e : E)
    (h : (newKubeClient r path b).1.2 = some e) :
    New r path host b =
      (Outcome.exited 1,
        (newKubeClient r path b).2.write
          (LogEntry.fatal "Could not init Kubernetes client! [%s]" e)) := by
  unfold New
  rcases hn : newKubeClient r path b with ⟨⟨client, _ | err⟩, b1⟩
  · rw [hn] at h
    simp at h
  · rw [hn] at h
    simp at h
    subst h
    rfl

/-- The result of `New` when `newKubeClient` succeeds: the handle holds the client and
the host, and the error is nil. -/
theorem New_of_success (r : Resolver C K E) (path host : String) (b : Boot C E)
    (h : (newKubeClient r path b).1.2 = none) :
    New r path host b =
      (Outcome.returned
          (some { Kclient := (newKubeClient r path b).1.1, MasterHost := host }, none),
        (newKubeClient r path b).2) := by
  unfold New
  rcases hn : newKubeClient r path b with ⟨⟨client, _ | err⟩, b1⟩
  · rfl
  · rw [hn] at h
    simp at h

/-- When resolution fails, `newKubeClient` returns a nil client and a non-nil error. -/
theorem newKubeClient_of_failure (r : Resolver C K E) (path : String) (b : Boot C E)
    (h : ResolutionFails r path) :
    ∃ e, (newKubeClient r path b).1 = (none, some e) := by
  rcases h with ⟨hp, h⟩ | ⟨hp, h⟩
  · subst hp
    rw [newKubeClient_empty]
    rcases h1 : r.InClusterConfig with ⟨cfg, _ | err⟩
    · rcases h2 : r.NewForConfig cfg with ⟨client, _ | err2⟩
      · simp [h1, h2] at h
      · exact ⟨err2, by simp [h2]⟩
    · exact ⟨err, rfl⟩
  · rw [newKubeClient_path r path hp]
    rcases h1 : r.BuildConfigFromFlags "" path with ⟨cfg, _ | err⟩
    · rcases h2 : r.NewForConfig cfg with ⟨client, _ | err2⟩
      · simp [h1, h2] at h
      · exact ⟨err2, by simp [h2]⟩
    · exact ⟨err, rfl⟩

/-- C2, as stated, fails: with no in-cluster environment and the empty path, resolution
fails, and `New` does not return an error to its caller; the process exits with
status 1. -/
theorem New_returns_no_error_counterexample :
    ResolutionFails demoResolver "" ∧
      (New demoResolver "" "https://cluster.local" emptyBoot).1 = Outcome.exited 1 ∧
      ¬ ∃ e, (New demoResolver "" "https://cluster.local" emptyBoot).1
          = Outcome.returned (none, some e) := by
  refine ⟨Or.inl ⟨rfl, Or.inl (by decide)⟩, by decide, ?_⟩
  rintro ⟨e, he⟩
  have hx : (New demoResolver "" "https://cluster.local" emptyBoot).1 = Outcome.exited 1 := by
    decide
  rw [hx] at he
  cases he

/-- C2, amended: when loading the configuration or building the client fails, in either
branch, `newKubeClient` returns a nil client and an error `e`, and `New` writes the fatal
entry `Could not init Kubernetes client! [e]` and exits the process with status 1; it
does not return, so no handle reaches the caller. -/
theorem New_exits_when_resolution_fails (r : Resolver C K E) (path host : String)
    (b : Boot C E) (h : ResolutionFails r path) :
    ∃ e, (newKubeClient r path b).1 = (none, some e) ∧
      New r path host b =
        (Outcome.exited 1,
          (newKubeClient r path b).2.write
            (LogEntry.fatal "Could not init Kubernetes client! [%s]" e)) ∧
      ∀ ret, (New r path host b).1 ≠ Outcome.returned ret := by
  obtain ⟨e, he⟩ := newKubeClient_of_failure r path b h
  have hf : (newKubeClient r path b).1.2 = some e := by rw [he]
  have hn := New_of_failure r path host b e hf
  refine ⟨e, he, hn, ?_⟩
  intro ret hret
  rw [hn] at hret
  cases hret

/-- Witness of the amended C2: a path to a file that cannot be read. -/
theorem New_exits_when_resolution_fails_witness :
    ResolutionFails demoResolver "/tmp/missing" ∧
      ∃ e, (newKubeClient demoResolver "/tmp/missing" emptyBoot).1 = (none, some e) ∧
        New demoResolver "/tmp/missing" "https://cluster.local" emptyBoot =
          (Outcome.exited 1,
            (newKubeClient demoResolver "/tmp/missing" emptyBoot).2.write
              (LogEntry.fatal "Could not init Kubernetes client! [%s]" e)) ∧
        ∀ ret, (New demoResolver "/tmp/missing" "https://cluster.local" emptyBoot).1
          ≠ Outcome.returned ret :=
  ⟨Or.inr ⟨by decide, Or.inl (by decide)⟩,
   New_exits_when_resolution_fails demoResolver "/tmp/missing" "https://cluster.local"
     emptyBoot (Or.inr ⟨by decide, Or.inl (by decide)⟩)⟩

/-- C10: whenever `New` returns, the returned error is nil and the returned handle is
non-nil, with `MasterHost` the host argument and `Kclient` the client that
`newKubeClient` produced, and `newKubeClient` had succeeded; `New` does return so whenever
`newKubeClient` succeeds; and when `newKubeClient` fails, `New` does not return the error:
the process exits with status 1. -/
theorem New_returns_only_on_success (r : Resolver C K E) (path host : String)
    (b : Boot C E) :
    (∀ ret, (New r path host b).1 = Outcome.returned ret →
      ret = (some { Kclient := (newKubeClient r path b).1.1, MasterHost := host }, none) ∧
        (newKubeClient r path b).1.2 = none) ∧
    ((newKubeClient r path b).1.2 = none →
      (New r path host b).1 = Outcome.returned
        (some { Kclient := (newKubeClient r path b).1.1, MasterHost := host }, none)) ∧
    (∀ e, (newKubeClient r path b).1.2 = some e →
      (New r path host b).1 = Outcome.exited 1) := by
  refine ⟨?_, ?_, ?_⟩
  · intro ret hret
    cases hn : (newKubeClient r path b).1.2 with
    | none =>
      rw [New_of_success r path host b hn] at hret
      simp only [Outcome.returned.injEq] at hret
      exact ⟨hret.symm, rfl⟩
    | some e =>
      rw [New_of_failure r path host b e hn] at hret
      cases hret
  · intro hn
    rw [New_of_success r path host b hn]
  · intro e hn
    rw [New_of_failure r path host b e hn]

/-- Witness of C10: with the readable credentials file, `New` returns the handle that
holds client 8 and the host, and a nil error; with the empty path it exits. -/
theorem New_returns_only_on_success_witness :
    (New demoResolver "/home/dev/.kube/config" "https://cluster.local" emptyBoot).1
        = Outcome.returned
          (some { Kclient := some 8, MasterHost := "https://cluster.local" }, none) ∧
      (New demoResolver "" "https://cluster.local" emptyBoot).1 = Outcome.exited 1 :=
  ⟨(New_returns_only_on_success demoResolver "/home/dev/.kube/config"
      "https://cluster.local" emptyBoot).2.1 (by decide),
   (New_returns_only_on_success demoResolver "" "https://cluster.local" emptyBoot).2.2
      "unable to load in-cluster configuration" (by decide)⟩

end ConstructionTheorems

section WatchTheorems

variable {τ N E K : Type}

/-- One invocation of the callback through either handler function, on a namespace. -/
theorem callHandler_ns (handler : N → τ → Option E × τ) (n : N) (st : WatchState τ N E) :
    callHandler handler (Obj.ns n) st =
      Outcome.returned
        { user := (handler n st.user).2
          invoked := st.invoked ++ [n]
          log := st.log ++ (errorsOf handler [n] st.user).map LogEntry.println
          stopC := st.stopC
          resyncPeriod := st.resyncPeriod } := by
  unfold callHandler
  cases h : (handler n st.user).1 <;> simp [errorsOf, h]

/-- An add notification reaches the callback through `AddFunc`. -/
theorem dispatch_add (handler : N → τ → Option E × τ) (obj : Obj N) (st : WatchState τ N E) :
    (namespaceHandlers handler).dispatch (Notification.add obj) st
      = callHandler handler obj st := rfl

/-- An update notification reaches the callback through `UpdateFunc`, with the new
object. -/
theorem dispatch_update (handler : N → τ → Option E × τ) (oldObj newObj : Obj N)
    (st : WatchState τ N E) :
    (namespaceHandlers handler).dispatch (Notification.update oldObj newObj) st
      = callHandler handler newObj st := rfl

/-- A delete notification finds no function registered and changes nothing. -/
theorem dispatch_delete (handler : N → τ → Option E × τ) (obj : Obj N)
    (st : WatchState τ N E) :
    (namespaceHandlers handler).dispatch (Notification.delete obj) st
      = Outcome.returned st := rfl

/-- The loop over a run of namespace events: it delivers each add and update to the
callback, in order, writes each error the callback returns to the log, and is still
running afterwards. -/
theorem processLoop_events (handler : N → τ → Option E × τ) (evs : List (NsEvent N))
    (st : WatchState τ N E) (hs : st.stopC.signalled = false) :
    processLoop (namespaceHandlers handler) (fun s => s.stopC)
        (evs.map NsEvent.toNotification) st =
      (RunStatus.running,
        { user := userAfter handler (evs.filterMap NsEvent.expected) st.user
          invoked := st.invoked ++ evs.filterMap NsEvent.expected
          log := st.log ++
            (errorsOf handler (evs.filterMap NsEvent.expected) st.user).map LogEntry.println
          stopC := st.stopC
          resyncPeriod := st.resyncPeriod }) := by
  induction evs generalizing st with
  | nil => simp [processLoop, hs, userAfter, errorsOf]
  | cons e rest ih =>
    cases e with
    | add obj =>
      simp only [List.map_cons, NsEvent.toNotification, processLoop, hs, dispatch_add,
        dispatch_update, callHandler_ns, Bool.false_eq_true, if_false]
      refine (ih _ ?_).trans ?_
      · exact hs
      · cases h : (handler obj st.user).1 <;>
          simp [NsEvent.expected, userAfter, errorsOf, h]
    | update oldObj newObj =>
      simp only [List.map_cons, NsEvent.toNotification, processLoop, hs, dispatch_add,
        dispatch_update, callHandler_ns, Bool.false_eq_true, if_false]
      refine (ih _ ?_).trans ?_
      · exact hs
      · cases h : (handler newObj st.user).1 <;>
          simp [NsEvent.expected, userAfter, errorsOf, h]
    | delete obj =>
      simp only [List.map_cons, NsEvent.toNotification, processLoop, hs, dispatch_delete,
        Bool.false_eq_true, if_false]
      rw [ih st hs]
      simp [NsEvent.expected]

/-- The state of the silenced callback moves as the state of the callback does. -/
theorem userAfter_silenced (handler : N → τ → Option E × τ) (args : List N) (s : τ) :
    userAfter (silenced handler) args s = userAfter handler args s := by
  induction args generalizing s with
  | nil => rfl
  | cons n rest ih => simp [userAfter, silenced, ih]

/-- The silenced callback returns no error. -/
theorem errorsOf_silenced (handler : N → τ → Option E × τ) (args : List N) (s : τ) :
    errorsOf (silenced handler) args s = [] := by
  induction args generalizing s with
  | nil => rfl
  | cons n rest ih => simp [errorsOf, silenced, ih]

/-- The number of deliveries expected from a run of events is its number of adds and
updates. -/
theorem length_filterMap_expected (evs : List (NsEvent N)) :
    (evs.filterMap NsEvent.expected).length = evs.countP NsEvent.isAddOrUpdate := by
  induction evs with
  | nil => rfl
  | cons e rest ih => cases e <;> simp [NsEvent.expected, NsEvent.isAddOrUpdate, ih]

/-- The handlers of `WatchNamespaces` never touch the stop channel, and the loop over any
notifications, well typed or not, does not return through it. -/
theorem processLoop_stop_untouched (handler : N → τ → Option E × τ)
    (evs : List (Notification N)) (st : WatchState τ N E)
    (hs : st.stopC.signalled = false) :
    (processLoop (namespaceHandlers handler) (fun s => s.stopC) evs st).1
        ≠ RunStatus.stopped ∧
      (processLoop (namespaceHandlers handler) (fun s => s.stopC) evs st).2.stopC
        = st.stopC := by
  induction evs generalizing st with
  | nil => simp [processLoop, hs]
  | cons e rest ih =>
    cases e with
    | add obj =>
      cases obj with
      | ns n =>
        simp only [processLoop, hs, ResourceEventHandlerFuncs.dispatch, namespaceHandlers,
          callHandler_ns]
        exact ih _ hs
      | other kind =>
        simp [processLoop, hs, ResourceEventHandlerFuncs.dispatch, namespaceHandlers,
          callHandler]
    | update oldObj obj =>
      cases obj with
      | ns n =>
        simp only [processLoop, hs, ResourceEventHandlerFuncs.dispatch, namespaceHandlers,
          callHandler_ns]
        exact ih _ hs
      | other kind =>
        simp [processLoop, hs, ResourceEventHandlerFuncs.dispatch, namespaceHandlers,
          callHandler]
    | delete obj =>
      simp only [processLoop, hs, ResourceEventHandlerFuncs.dispatch, namespaceHandlers]
      exact ih _ hs

/-- The whole of `WatchNamespaces` over a run of namespace events. -/
theorem WatchNamespaces_events (client : K) (host : String) (resync : Int)
    (handler : N → τ → Option E × τ) (evs : List (NsEvent N)) (user : τ)
    (log : List (LogEntry E)) :
    WatchNamespaces ⟨some client, host⟩ resync handler (evs.map NsEvent.toNotification)
        user log =
      (RunStatus.running,
        { user := userAfter handler (evs.filterMap NsEvent.expected) user
          invoked := evs.filterMap NsEvent.expected
          log := log ++
            (errorsOf handler (evs.filterMap NsEvent.expected) user).map LogEntry.println
          stopC := Chan.make
          resyncPeriod := resync }) := by
  have h := processLoop_events handler evs
    ({ user := user, invoked := [], log := log, stopC := Chan.make,
       resyncPeriod := resync } : WatchState τ N E) rfl
  simpa [WatchNamespaces] using h

/-- C4: for every finite sequence of informer events delivered to the handlers that
`WatchNamespaces` registers, and every callback, the callback is invoked on, in order, the
added object of each add event and the new object of each update event: its state after
the run is its state after those invocations, and the arguments on record are those
objects; their number is the number of add and update events; and each single event, in
any state, invokes the callback exactly once, on that object, when it is an add or an
update and not at all when it is a delete. -/
theorem watch_delivers_adds_and_updates (client : K) (host : String) (resync : Int)
    (handler : N → τ → Option E × τ) (evs : List (NsEvent N)) (user : τ)
    (log : List (LogEntry E)) :
    (WatchNamespaces ⟨some client, host⟩ resync handler (evs.map NsEvent.toNotification)
        user log).2.invoked = evs.filterMap NsEvent.expected ∧
      (WatchNamespaces ⟨some client, host⟩ resync handler (evs.map NsEvent.toNotification)
        user log).2.user = userAfter handler (evs.filterMap NsEvent.expected) user ∧
      (WatchNamespaces ⟨some client, host⟩ resync handler (evs.map NsEvent.toNotification)
        user log).2.invoked.length = evs.countP NsEvent.isAddOrUpdate ∧
      ∀ (e : NsEvent N) (st : WatchState τ N E),
        ∃ st1, (namespaceHandlers handler).dispatch e.toNotification st = Outcome.returned st1 ∧
          st1.invoked = st.invoked ++ e.expected.toList ∧
          st1.user = userAfter handler e.expected.toList st.user := by
  have hrun : (WatchNamespaces ⟨some client, host⟩ resync handler
      (evs.map NsEvent.toNotification) user log).2.invoked
        = evs.filterMap NsEvent.expected := by
    rw [WatchNamespaces_events]
  refine ⟨hrun, ?_, ?_, ?_⟩
  · rw [WatchNamespaces_events]
  · rw [hrun, length_filterMap_expected]
  · intro e st
    cases e with
    | add obj =>
      exact ⟨_, by rw [NsEvent.toNotification, dispatch_add, callHandler_ns],
        by simp [NsEvent.expected], by simp [NsEvent.expected, userAfter]⟩
    | update oldObj newObj =>
      exact ⟨_, by rw [NsEvent.toNotification, dispatch_update, callHandler_ns],
        by simp [NsEvent.expected], by simp [NsEvent.expected, userAfter]⟩
    | delete obj =>
      exact ⟨st, by rw [NsEvent.toNotification, dispatch_delete],
        by simp [NsEvent.expected], by simp [NsEvent.expected, userAfter]⟩

/-- Witness of C4: over two adds, an update, a delete and an add, the callback, which
appends each namespace it is given to its list, has received the four namespaces of the
adds and the update, in order, and nothing for the delete. -/
theorem watch_delivers_adds_and_updates_witness :
    (WatchNamespaces (⟨some (), "https://cluster.local"⟩ : K8sutilInterface Unit) 30
        demoHandler (demoEvents.map NsEvent.toNotification) [] []).2.invoked
        = ["ns-a", "broken", "ns-a", "ns-b"] ∧
      (WatchNamespaces (⟨some (), "https://cluster.local"⟩ : K8sutilInterface Unit) 30
        demoHandler (demoEvents.map NsEvent.toNotification) [] []).2.user
        = ["ns-a", "broken", "ns-a", "ns-b"] :=
  ⟨(watch_delivers_adds_and_updates () "https://cluster.local" 30 demoHandler demoEvents
      [] []).1,
   (watch_delivers_adds_and_updates () "https://cluster.local" 30 demoHandler demoEvents
      [] []).2.1⟩

/-- C5: for every sequence of events and every callback, the errors that the callback
returns change nothing in the delivery: the loop is still running after the events, the
callback was invoked on the same arguments, once per add or update event, and went through
the same states as the callback with its errors removed; each returned error was written
to the log once, in order, and nothing else was; the loop has not returned, so no error
reached the caller of `WatchNamespaces`. -/
theorem watch_continues_after_callback_error (client : K) (host : String) (resync : Int)
    (handler : N → τ → Option E × τ) (evs : List (NsEvent N)) (user : τ)
    (log : List (LogEntry E)) :
    (WatchNamespaces ⟨some client, host⟩ resync handler (evs.map NsEvent.toNotification)
        user log).1 = RunStatus.running ∧
      (WatchNamespaces ⟨some client, host⟩ resync handler (evs.map NsEvent.toNotification)
        user log).2.invoked
        = (WatchNamespaces ⟨some client, host⟩ resync (silenced handler)
            (evs.map NsEvent.toNotification) user log).2.invoked ∧
      (WatchNamespaces ⟨some client, host⟩ resync handler (evs.map NsEvent.toNotification)
        user log).2.invoked = evs.filterMap NsEvent.expected ∧
      (WatchNamespaces ⟨some client, host⟩ resync handler (evs.map NsEvent.toNotification)
        user log).2.user
        = (WatchNamespaces ⟨some client, host⟩ resync (silenced handler)
            (evs.map NsEvent.toNotification) user log).2.user ∧
      (WatchNamespaces ⟨some client, host⟩ resync handler (evs.map NsEvent.toNotification)
        user log).2.log
        = log ++ (errorsOf handler (evs.filterMap NsEvent.expected) user).map
            LogEntry.println ∧
      (WatchNamespaces ⟨some client, host⟩ resync (silenced handler)
        (evs.map NsEvent.toNotification) user log).2.log = log := by
  rw [WatchNamespaces_events, WatchNamespaces_events]
  simp [userAfter_silenced, errorsOf_silenced]

/-- Witness of C5: the callback fails on the second event; the two later deliveries
happen all the same and the one error is in the log once. -/
theorem watch_continues_after_callback_error_witness :
    (WatchNamespaces (⟨some (), "https://cluster.local"⟩ : K8sutilInterface Unit) 30
        demoHandler (demoEvents.map NsEvent.toNotification) [] []).2.log
      = [LogEntry.println "cannot handle broken"] :=
  (watch_continues_after_callback_error () "https://cluster.local" 30 demoHandler demoEvents
    [] []).2.2.2.2.1

/-- C9: in every execution of `WatchNamespaces`, whatever the facade, the callback and the
notifications the informer delivers (well typed or not), the stop channel allocated by
`WatchNamespaces` is not signalled in the state reached, and the loop has not returned
through it.  Every state of a watch is the state reached after some finite sequence of
notifications, so no reachable state has the stop signal set. -/
theorem watch_stop_signal_never_raised (k : K8sutilInterface K) (resync : Int)
    (handler : N → τ → Option E × τ) (evs : List (Notification N)) (user : τ)
    (log : List (LogEntry E)) :
    (WatchNamespaces k resync handler evs user log).1 ≠ RunStatus.stopped ∧
      (WatchNamespaces k resync handler evs user log).2.stopC.signalled = false := by
  unfold WatchNamespaces
  cases hk : k.Kclient with
  | none => simp [Chan.make]
  | some client =>
    have h := processLoop_stop_untouched handler evs
      ({ user := user, invoked := [], log := log, stopC := Chan.make,
         resyncPeriod := resync } : WatchState τ N E) rfl
    exact ⟨h.1, by rw [h.2]; rfl⟩

end WatchTheorems

end K8sutil
